import Mathlib

/-!
Shallow embedding of the Daily-user-analytics repository (Python) in Lean 4.

Strings are modelled as `List Char` (ASCII text, which is what the scripts
handle); Python `None` is modelled with `Option`; Python `float` arithmetic
is modelled with exact rationals `ℚ`; the current clock time
(`datetime.now()`) is passed in explicitly as a parameter; outbound network
and SMTP effects are modelled by passing in the observed outcome of each
call.  Each definition carries a comment naming the Python function (file
and symbol) it is translated from.
-/

namespace DailyAnalytics

/-- Python `str.strip()`: remove leading and trailing whitespace. -/
def pyStrip (l : List Char) : List Char :=
  ((l.dropWhile Char.isWhitespace).reverse.dropWhile Char.isWhitespace).reverse

/-- Python `str.lower()` (ASCII). -/
def lowerL (l : List Char) : List Char := l.map Char.toLower

/-- Python `str.startswith(pat)` on the character list. -/
def startsWithSeq : List Char → List Char → Bool
  | _, [] => true
  | [], _ :: _ => false
  | c :: cs, p :: ps => (c == p) && startsWithSeq cs ps

/-- Python `pat in s` (substring containment). -/
def hasSub : List Char → List Char → Bool
  | [], pat => pat.isEmpty
  | l@(_ :: t), pat => startsWithSeq l pat || hasSub t pat

/-- Python `dict.get` over an insertion-ordered association list. -/
def assocLookup {α : Type} : List (List Char × α) → List Char → Option α
  | [], _ => none
  | kv :: t, k => if kv.1 = k then some kv.2 else assocLookup t k

/-- Python `"\n".join(parts)`. -/
def joinNL : List (List Char) → List Char
  | [] => []
  | [x] => x
  | x :: y :: t => x ++ '\n' :: joinNL (y :: t)

/-! ## Phone number utilities (src/lead_sync/lead_sync_script.py) -/

/-- The separator filter in `normalize_phone_number`: Python
`phone.replace(" ", "").replace("-", "").replace("(", "").replace(")", "")`
removes every occurrence of the four single characters, i.e. keeps exactly
the characters accepted by this predicate. -/
def notSep (c : Char) : Bool :=
  !(c == ' ' || c == '-' || c == '(' || c == ')')

/-- Country-code stripping step of `normalize_phone_number`
(lead_sync_script.py lines 314-318): drop a leading `+91`, or a leading
`91` when more than 10 characters remain. -/
def stripCountryCode (p : List Char) : List Char :=
  if startsWithSeq p ['+', '9', '1'] then p.drop 3
  else if startsWithSeq p ['9', '1'] ∧ 10 < p.length then p.drop 2
  else p

/-- The digit sequence remaining after the strip / separator-removal /
country-code steps of `normalize_phone_number` (lead_sync_script.py line
321: `phone = ''.join(filter(str.isdigit, phone))`). -/
def phone_digits (phone : List Char) : List Char :=
  (stripCountryCode ((pyStrip phone).filter notSep)).filter Char.isDigit

/-- `normalize_phone_number` (lead_sync_script.py lines 300-323).  An empty
(falsy) input returns `""`; otherwise the cleaned digit string, truncated
to its last 10 characters when at least 10 remain. -/
def normalize_phone_number (phone : List Char) : List Char :=
  match phone with
  | [] => []
  | _ :: _ =>
    let d := phone_digits phone
    if 10 ≤ d.length then d.drop (d.length - 10) else d

/-! ## Lead payload transformation (src/lead_sync/lead_sync_script.py) -/

/-- Python `external_record.get(k) or ''` followed by `str(...)`:
a missing or `None` (or otherwise falsy) field becomes the empty string. -/
def orEmpty : Option (List Char) → List Char
  | none => []
  | some s => s

/-- An external API record as read by `transform_external_data_to_lead`
(lead_sync_script.py lines 330-380).  Each field is the raw value of
`external_record.get(...)`, with `str()` conversion folded into the
character list. -/
structure ExternalRecord where
  phone : Option (List Char)
  patient_name : Option (List Char)
  created_at_ist : Option (List Char)
  email : Option (List Char)
deriving DecidableEq

/-- The cleaned `phone` local of `transform_external_data_to_lead`
(lines 352-354): strip, then keep digits only. -/
def lead_phone_of (r : ExternalRecord) : List Char :=
  (pyStrip (orEmpty r.phone)).filter Char.isDigit

/-- The `name` local (lines 357-360): stripped, `None` when empty. -/
def lead_name_of (r : ExternalRecord) : Option (List Char) :=
  let name := pyStrip (orEmpty r.patient_name)
  if name = [] then none else some name

/-- The `email` local (lines 363-366): stripped, `None` when empty or equal
to `"null"` case-insensitively. -/
def lead_email_of (r : ExternalRecord) : Option (List Char) :=
  let email := pyStrip (orEmpty r.email)
  if email = [] ∨ lowerL email = "null".data ∨ email = [] then none else some email

/-- The `notes` field (line 376): an f-string over the current time and the
record's `created_at_ist`. -/
def lead_notes_of (r : ExternalRecord) (now : List Char) : List Char :=
  "Auto-synced from MDT on ".data ++ now ++ "\nOriginal signup time: ".data
    ++ orEmpty r.created_at_ist

/-- `transform_external_data_to_lead` (lead_sync_script.py lines 330-380):
builds the `lead_data` dict (insertion order as in the source) and drops
the keys whose value is `None`
(`{k: v for k, v in lead_data.items() if v is not None}`). -/
def transform_external_data_to_lead (r : ExternalRecord) (now : List Char) :
    List (List Char × List Char) :=
  let lead_data : List (List Char × Option (List Char)) :=
    [("phone_number".data, some (lead_phone_of r)),
     ("name".data, lead_name_of r),
     ("email".data, lead_email_of r),
     ("source".data, some "MDT App Signup".data),
     ("sub_source".data, some "Daily Sync".data),
     ("status".data, some "New".data),
     ("notes".data, some (lead_notes_of r now))]
  lead_data.filterMap (fun kv => kv.2.map (fun v => (kv.1, v)))

/-! ## Progress status (src/earlyfit_email_report.py, compute_progress_status) -/

/-- The analytics row fields consumed by `compute_progress_status`
(earlyfit_email_report.py lines 1154-1157 and 1176): each field holds the
result of `parse_float(analytics_entry.get(column))`, i.e. `none` when the
cell is missing or unparseable as a number, else the parsed value
(Python float arithmetic modelled as `ℚ`). -/
structure AnalyticsEntry where
  startWeight : Option ℚ
  goalWeight : Option ℚ
  currentWeight : Option ℚ
  currentWeightLose : Option ℚ
deriving DecidableEq

/-- The sheet row field consumed by `compute_progress_status` (lines
1165-1166): the result of `parse_date(_get_sheet_value(sheet_entry,
"Glp 1st dose"))` as an ordinal day number, `none` when the cell is
missing, falsy, or unparseable by `parse_date`. -/
structure SheetEntry where
  glpFirstDose : Option Int
deriving DecidableEq

/-- `compute_progress_status` (earlyfit_email_report.py lines 1148-1183).
`today` is `datetime.now().date()` as an ordinal day number. -/
def compute_progress_status (today : Int) (sheet_entry : Option SheetEntry)
    (analytics_entry : Option AnalyticsEntry) : String :=
  match analytics_entry with
  | none => "Data Incomplete"
  | some a =>
    match a.startWeight, a.goalWeight with
    | some start_weight, some goal_weight =>
      let total_target_loss := start_weight - goal_weight
      if total_target_loss ≤ 0 then "Data Incomplete"
      else
        match sheet_entry.bind SheetEntry.glpFirstDose with
        | none => "Data Incomplete"
        | some glp_dose_date =>
          let days_since : Int := max (today - glp_dose_date) 0
          let daily_target_loss := total_target_loss / 90
          let ideal_loss := daily_target_loss * (days_since : ℚ)
          let current_loss : Option ℚ :=
            match a.currentWeight with
            | some cw => some (start_weight - cw)
            | none => a.currentWeightLose
          match current_loss with
          | none => "Data Incomplete"
          | some cl => if cl ≥ ideal_loss then "On Track" else "Off Track"
    | _, _ => "Data Incomplete"

/-! ## Lead ingestion (src/lead_sync/lead_sync_script.py) -/

/-- Outcome of the single `requests.post` made by `CRMAPIClient.ingest_lead`
for one lead: either an HTTP response (with, when the body is valid JSON,
the optional `status` field of the parsed body), or a raised transport
exception (Timeout / ConnectionError / RequestException).
`body = none` models a body that fails JSON decoding. -/
inductive NetOutcome where
  | response (status : Nat) (body : Option (Option String))
  | netError (e : String)
deriving DecidableEq

/-- The value `result.get('status')` of a successful ingestion. -/
structure IngestResult where
  status : Option String
deriving DecidableEq

/-- `CRMAPIClient.ingest_lead` (lead_sync_script.py lines 213-293).
`response.raise_for_status()` (requests library) raises `HTTPError` exactly
for status codes 400-599; the `except HTTPError` handler returns
`{"status": "exists", ...}` for 409 and re-raises otherwise; transport
exceptions and JSON decode failures are logged and re-raised. -/
def ingest_lead : NetOutcome → Except String IngestResult
  | .netError e => .error e
  | .response status body =>
    if 400 ≤ status ∧ status < 600 then
      if status = 409 then .ok ⟨some "exists"⟩ else .error "HTTPError"
    else
      match body with
      | none => .error "JSONDecodeError"
      | some fields => .ok ⟨fields⟩

/-- The statistics object of `sync_leads` (lead_sync_script.py lines
392-403), restricted to the fields touched by the ingestion loop. -/
structure SyncStats where
  total_ingested : Nat
  already_exists : Nat
  failed : Nat
  errors : List String
deriving DecidableEq

/-- One iteration of the Step-5 ingestion loop of `sync_leads`
(lead_sync_script.py lines 512-529): one `ingest_lead` attempt for the
lead, counting `already_exists` on `status == 'exists'`, `total_ingested`
otherwise, and on any exception counting `failed` and appending one error
string. -/
def sync_ingest_step (stats : SyncStats) (lead : String × NetOutcome) : SyncStats :=
  match ingest_lead lead.2 with
  | .ok result =>
    if result.status = some "exists" then
      { stats with already_exists := stats.already_exists + 1 }
    else
      { stats with total_ingested := stats.total_ingested + 1 }
  | .error e =>
    { stats with
      failed := stats.failed + 1,
      errors := stats.errors ++ ["Failed to ingest lead " ++ lead.1 ++ ": " ++ e] }

/-- The Step-5 ingestion loop of `sync_leads` (lead_sync_script.py lines
512-529): each lead is paired with the outcome of its single POST; the
pairing makes the at-most-once attempt per lead structural. -/
def sync_ingest_loop (leads : List (String × NetOutcome)) (stats : SyncStats) : SyncStats :=
  leads.foldl sync_ingest_step stats

/-! ## Mailer (src/earlyfit_email_report.py, send_report_email step 4) -/

/-- Whether `server.send_message` raises for a given recipient in the
modelled SMTP session. -/
def sendFails (send : List Char → Except (List Char) Unit) (r : List Char) : Bool :=
  match send r with
  | .ok _ => false
  | .error _ => true

/-- The per-recipient loop of `send_report_email` (earlyfit_email_report.py
lines 1750-1765): attempts each recipient in order; an exception is caught
and the recipient appended to `failed_recipients`.  Returns the list of
recipients for which a send was attempted and the `failed_recipients`
list, both in iteration order. -/
def sendLoop (send : List Char → Except (List Char) Unit) :
    List (List Char) → List (List Char) × List (List Char)
  | [] => ([], [])
  | r :: rest =>
    let tail := sendLoop send rest
    match send r with
    | .ok _ => (r :: tail.1, tail.2)
    | .error _ => (r :: tail.1, r :: tail.2)

/-- Step 4 of `send_report_email` (earlyfit_email_report.py lines
1741-1782).  `login` is the outcome of `server.login` (line 1748): an
`SMTPAuthenticationError` — or any other exception raised before the loop
— is caught by an outer handler, which returns `False` before the
per-recipient loop runs.  `quit` is the outcome of `server.quit()` (line
1767), still inside the outer `try`: if it raises after the loop, the
outer `except Exception` handler (line 1781) returns `False` regardless
of `failed_recipients`.  Otherwise the function returns `False` iff
`failed_recipients` is non-empty (lines 1769-1774).  The second component
records which recipients a send was attempted for. -/
def send_report_email (login : Except Unit Unit)
    (send : List Char → Except (List Char) Unit)
    (quit : Except Unit Unit)
    (recipients : List (List Char)) : Bool × List (List Char) :=
  match login with
  | .error _ => (false, [])
  | .ok _ =>
    let r := sendLoop send recipients
    match quit with
    | .error _ => (false, r.1)
    | .ok _ => (if r.2 = [] then true else false, r.1)

/-! ## HTML escaping (src/earlyfit_email_report.py, generate_email_table line 1363) -/

/-- First pass of the escape at line 1363: `value.replace("&", "&amp;")`.
A left-to-right single scan, as Python `str.replace` does not rescan the
replacement text. -/
def replaceAmp : List Char → List Char
  | [] => []
  | c :: t => if c = '&' then '&' :: 'a' :: 'm' :: 'p' :: ';' :: replaceAmp t
              else c :: replaceAmp t

/-- Second pass: `.replace("<", "&lt;")`. -/
def replaceLt : List Char → List Char
  | [] => []
  | c :: t => if c = '<' then '&' :: 'l' :: 't' :: ';' :: replaceLt t
              else c :: replaceLt t

/-- Third pass: `.replace(">", "&gt;")`. -/
def replaceGt : List Char → List Char
  | [] => []
  | c :: t => if c = '>' then '&' :: 'g' :: 't' :: ';' :: replaceGt t
              else c :: replaceGt t

/-- The full escape applied to every cell value at line 1363:
`value.replace("&", "&amp;").replace("<", "&lt;").replace(">", "&gt;")`. -/
def escapeHtml (value : List Char) : List Char :=
  replaceGt (replaceLt (replaceAmp value))

/-! ## Table rendering (src/earlyfit_email_report.py, generate_email_table) -/

/-- `get_cell_class_and_style` (earlyfit_email_report.py lines 1278-1322).
`pyFloat` models the Python builtin `float(value_str)`, returning `none`
when it raises `ValueError`/`TypeError`.  The original receives the raw
cell value and computes `value_str = str(value).strip() if value is not
None else ""`; here `value` is already the string form with `None` mapped
to `""` (stripping `""` is `""`, so the two agree).  Python's fall-through
after a non-returning branch is equivalent to this `if`/`else` chain
because each branch is guarded by a distinct column name. -/
def get_cell_class_and_style (pyFloat : List Char → Option ℚ)
    (conditional_formatting : Bool) (column_name : List Char)
    (value : List Char) : List Char × List Char :=
  if !conditional_formatting then ([], [])
  else
    let value_str := pyStrip value
    if column_name = "User Onboarded".data ∧ lowerL value_str = "no".data then
      ("bg-red".data, [])
    else if (column_name = "Goals Set".data ∨ column_name = "Smart Scale Logged".data
        ∨ column_name = "Meal Logged".data) ∧ lowerL value_str = "no".data then
      ("bg-yellow".data, [])
    else if (column_name = "Interaction (5 Days)".data ∨ column_name = "Meal Log (3 days)".data
        ∨ column_name = "Weight Log (7 days)".data) ∧ lowerL value_str = "no".data then
      ("bg-yellow".data, [])
    else if column_name = "Days Since Last Interaction".data then
      match pyFloat value_str with
      | some days =>
        if 5 ≤ days then ("bg-red".data, [])
        else if 2 ≤ days ∧ days < 5 then ("bg-yellow".data, [])
        else ([], [])
      | none => ([], [])
    else if column_name = "On/Off Track".data ∧ hasSub (lowerL value_str) "off track".data then
      ("bg-orange".data, [])
    else if column_name = "Current Weight Lose".data then
      match pyFloat value_str with
      | some numeric_value => if numeric_value < 0 then ("bg-red".data, []) else ([], [])
      | none => ([], [])
    else ([], [])

/-- Python `sep.join(parts)` for a string separator. -/
def joinWith (sep : List Char) : List (List Char) → List Char
  | [] => []
  | [x] => x
  | x :: y :: t => x ++ sep ++ joinWith sep (y :: t)

/-- A row of `generate_email_table`'s input.  `cells` is the
insertion-ordered dict of displayable entries (value `none` models a
Python `None` cell); the two metadata entries `"__row_class__"` and
`"__cell_classes__"` of the same dict are held in their own fields since
they are dict/string-valued metadata; every key of the metadata entries
starts with `"__"` and is therefore excluded from the rendered columns. -/
structure Row where
  cells : List (List Char × Option (List Char))
  rowClass : Option (List Char)
  cellClasses : List (List Char × List Char)
deriving DecidableEq

/-- The string form of `row.get(col, "")` as used at lines 1354-1361:
a missing key gives `""`, a `None` value gives `""`, a dict/list value is
`json.dumps`-serialized (folded into the stored string), anything else is
`str(value)`. -/
def getCellStr (row : Row) (col : List Char) : List Char :=
  match assocLookup row.cells col with
  | none => []
  | some none => []
  | some (some s) => s

/-- The attribute text of one `<td>` tag (lines 1366-1373): the
`class_attr` from the conditional class merged with the extra class from
`__cell_classes__` (`" ".join(cls for cls in [...] if cls)`), followed by
the `style_attr`; the Python f-string `<td{class_attr}{style_attr}>`
concatenates exactly these two locals. -/
def tdAttrs (pyFloat : List Char → Option ℚ) (conditional_formatting : Bool)
    (cellClasses : List (List Char × List Char)) (col : List Char)
    (value : List Char) : List Char :=
  let cs := get_cell_class_and_style pyFloat conditional_formatting col value
  let extra := assocLookup cellClasses col
  let candidates := cs.1 :: (match extra with | some e => [e] | none => [])
  let combined := joinWith " ".data (candidates.filter (fun cls => cls ≠ []))
  let class_attr := if combined ≠ [] then " class=\"".data ++ combined ++ "\"".data else []
  let style_attr := if cs.2 ≠ [] then " style=\"".data ++ cs.2 ++ "\"".data else []
  class_attr ++ style_attr

/-- The `<td>` emission of `generate_email_table` (lines 1354-1375): escape
the value, compute the attribute text, and emit
`<td{class_attr}{style_attr}>{value}</td>` (line 1375), where `{value}`
is the escaped string from line 1363. -/
def renderTd (pyFloat : List Char → Option ℚ) (conditional_formatting : Bool)
    (cellClasses : List (List Char × List Char)) (col : List Char)
    (value : List Char) : List Char :=
  let escaped := escapeHtml value
  "<td".data ++ tdAttrs pyFloat conditional_formatting cellClasses col value
    ++ ">".data ++ escaped ++ "</td>".data

/-- One iteration of the tbody loop (lines 1345-1377): the `<tr>` opener
with the even/odd and custom row class, one `<td>` per column, and the
closing `</tr>`, each as its own element of the `html` list. -/
def renderRow (pyFloat : List Char → Option ℚ) (conditional_formatting : Bool)
    (columns : List (List Char)) (idxRow : Nat × Row) : List (List Char) :=
  let idx := idxRow.1
  let row := idxRow.2
  let base_class := if idx % 2 = 0 then "even".data else "odd".data
  let row_class := match row.rowClass with
    | some custom => if custom ≠ [] then base_class ++ ' ' :: custom else base_class
    | none => base_class
  ("<tr class=\"".data ++ pyStrip row_class ++ "\">".data)
    :: (columns.map (fun col =>
          renderTd pyFloat conditional_formatting row.cellClasses col (getCellStr row col))
        ++ ["</tr>".data])

/-- The title block appended when `title` is truthy (lines 1327-1332),
an f-string over the title, `datetime.now()` and the row count. -/
def titleBlock (title now : List Char) (count : Nat) : List Char :=
  "\n        <div class=\"table-title\">\n            <h2>".data ++ title
    ++ "</h2>\n            <p>Generated: ".data ++ now
    ++ " | Total Records: ".data ++ (toString count).data
    ++ "</p>\n        </div>\n        ".data

/-- `generate_email_table` (earlyfit_email_report.py lines 1265-1380).
`pyFloat` models the `float` builtin used by the conditional formatting;
`now` is `datetime.now().strftime('%Y-%m-%d %H:%M:%S')`. -/
def generate_email_table (pyFloat : List Char → Option ℚ) (now : List Char)
    (data : List Row) (title : Option (List Char)) (conditional_formatting : Bool)
    (exclude_columns : Option (List (List Char))) : List Char :=
  match data with
  | [] => "<p class=\"no-data\">No data available</p>".data
  | first :: _ =>
    let all_columns := first.cells.map Prod.fst
    let columns0 := all_columns.filter
      (fun col => !(startsWithSeq col ['_', '_']) && !(col == "_cell_classes__".data))
    let columns := match exclude_columns with
      | some ex => columns0.filter (fun col => !(ex.contains col))
      | none => columns0
    let titleParts := match title with
      | some t => if t ≠ [] then [titleBlock t now data.length] else []
      | none => []
    joinWith "\n".data
      (titleParts
        ++ ["<table class=\"data-table\">".data, "<thead>".data, "<tr>".data]
        ++ columns.map (fun col => "<th>".data ++ col ++ "</th>".data)
        ++ ["</tr>".data, "</thead>".data, "<tbody>".data]
        ++ data.enum.flatMap (renderRow pyFloat conditional_formatting columns)
        ++ ["</tbody>".data, "</table>".data])

/-! ## Multi-table email assembly (src/earlyfit_email_report.py,
generate_multiple_tables_email, lines 1383-1478) -/

/-- The `css_styles` literal (lines 1389-1420). -/
def cssStyles : List Char :=
  ("\n    <style>\n        body \x7b margin: 0; padding: 0; font-family: Arial, sans-serif; background-color: #f5f5f5; \x7d\n        .container \x7b max-width: 100%; margin: 0 auto; padding: 20px; background-color: #ffffff; \x7d\n        h1 \x7b color: #333; font-size: 24px; margin: 0; font-weight: bold; \x7d\n        h2 \x7b color: #4CAF50; font-size: 18px; margin: 0 0 10px 0; font-weight: bold; border-bottom: 1px solid #ddd; padding-bottom: 5px; \x7d\n        p \x7b color: #333; font-size: 14px; line-height: 1.6; \x7d\n        .header \x7b border-bottom: 2px solid #4CAF50; padding-bottom: 15px; margin-bottom: 20px; \x7d\n        .table-section \x7b margin-top: 30px; margin-bottom: 15px; \x7d\n        .table-section:first-child \x7b margin-top: 0; \x7d\n        \n        /* Table Styles */\n        .data-table \x7b border-collapse: collapse; width: 100%; font-size: 12px; border: 1px solid #ddd; \x7d\n        .data-table th \x7b padding: 8px; text-align: left; background-color: #4CAF50; color: white; font-weight: bold; border: 1px solid #45a049; white-space: nowrap; \x7d\n        .data-table td \x7b padding: 8px; border: 1px solid #ddd; color: #333; \x7d\n        .data-table tr.even \x7b background-color: #f9f9f9; \x7d\n        .data-table tr.odd \x7b background-color: #ffffff; \x7d\n        \n        /* Conditional Formatting Classes */\n        .bg-red \x7b background-color: #ff6666 !important; \x7d\n        .bg-yellow \x7b background-color: #ffff00 !important; \x7d\n        .bg-orange \x7b background-color: #ff9900 !important; \x7d\n        .row-blue \x7b background-color: #003d73 !important; color: #ffffff !important; \x7d\n        .cell-blue \x7b background-color: #003d73 !important; color: #ffffff !important; \x7d\n        \n        .footer \x7b margin-top: 30px; padding-top: 15px; border-top: 1px solid #ddd; color: #666; font-size: 11px; \x7d\n        .no-data \x7b color: #666; font-style: italic; \x7d\n    </style>\n    ").data

/-- The document shell opening (lines 1422-1433), with `css_styles`
interpolated. -/
def docHead : List Char :=
  "\n    <!DOCTYPE html>\n    <html>\n    <head>\n        <meta charset=\"UTF-8\">\n        <meta name=\"viewport\" content=\"width=device-width, initial-scale=1.0\">\n        ".data
    ++ cssStyles
    ++ "\n    </head>\n    <body>\n        <div class=\"container\">\n    ".data

/-- The report header block (lines 1435-1439). -/
def headerBlock (title : List Char) : List Char :=
  "\n            <div class=\"header\">\n                <h1>".data ++ title
    ++ "</h1>\n            </div>\n    ".data

/-- The greeting paragraph (lines 1441-1446). -/
def greetingBlock (greeting : List Char) : List Char :=
  "\n            <p style=\"margin-bottom: 20px;\">\n                ".data ++ greeting
    ++ "\n            </p>\n        ".data

/-- The per-table heading block (lines 1450-1454). -/
def headingSection (heading : List Char) : List Char :=
  "\n            <div class=\"table-section\">\n                <h2>".data ++ heading
    ++ "</h2>\n            </div>\n            ".data

/-- The closing paragraph (lines 1463-1468). -/
def closingBlock (closing : List Char) : List Char :=
  "\n            <p style=\"margin-top: 30px;\">\n                ".data ++ closing
    ++ "\n            </p>\n        ".data

/-- The text of the fixed footer before the generation timestamp
(lines 1470-1477). -/
def footerPre : List Char :=
  "\n            <div class=\"footer\">\n                <p>\n                    This is an automated report generated by EarlyFit Analytics System.<br>\n                    Generated on: ".data

/-- The text of the fixed footer after the generation timestamp, closing
the document (lines 1470-1477). -/
def footerPost : List Char :=
  "\n                </p>\n            </div>\n        </div>\n    </body>\n    </html>\n    ".data

/-- The footer block with the embedded `datetime.now()` timestamp. -/
def footerBlock (now : List Char) : List Char :=
  footerPre ++ now ++ footerPost

/-- `use_formatting` for a table heading (line 1456). -/
def use_formatting_of (heading : List Char) : Bool :=
  (heading == "Coach +App User analytics".data)
    || (heading == "GLP User analytics".data)
    || (heading == "Full Analytics".data)

/-- `exclude_cols` for a table heading (line 1458). -/
def exclude_cols_of (heading : List Char) : Option (List (List Char)) :=
  if heading = "Coach +App User analytics".data ∨ heading = "GLP User analytics".data then
    some ["Consultant ID".data, "Consultant Name".data, "Subscription Name".data]
  else none

/-- One iteration of the table loop of `generate_multiple_tables_email`
(lines 1448-1461): when the table's row list is non-empty
(`if data and len(data) > 0`), append its heading block and rendered
table; otherwise append nothing. -/
def tables_loop_step (pyFloat : List Char → Option ℚ) (now : List Char)
    (acc : List (List Char)) (td : List Char × List Row) : List (List Char) :=
  match td.2 with
  | [] => acc
  | _ :: _ => acc ++ [headingSection td.1,
      generate_email_table pyFloat now td.2 none (use_formatting_of td.1) (exclude_cols_of td.1)]

/-- Python truthiness guard for the optional greeting/closing paragraphs
(`if greeting:` / `if closing:`): skipped when absent or empty. -/
def truthyBlock (f : List Char → List Char) : Option (List Char) → List (List Char)
  | none => []
  | some s => if s = [] then [] else [f s]

/-- `generate_multiple_tables_email` (earlyfit_email_report.py lines
1383-1478): document shell, header, optional greeting, the table loop,
optional closing, footer, joined with `"\n"`. -/
def generate_multiple_tables_email (pyFloat : List Char → Option ℚ) (now : List Char)
    (tables : List (List Char × List Row)) (title : List Char)
    (greeting closing : Option (List Char)) : List Char :=
  let parts1 := [docHead, headerBlock title] ++ truthyBlock greetingBlock greeting
  let parts2 := tables.foldl (tables_loop_step pyFloat now) parts1
  let parts3 := parts2 ++ truthyBlock closingBlock closing ++ [footerBlock now]
  joinWith "\n".data parts3

/-! ## Statement-side auxiliary definitions -/

/-- The per-character escape map used to state what the three sequential
`replace` passes of `escapeHtml` amount to: `&` ↦ `&amp;`, `<` ↦ `&lt;`,
`>` ↦ `&gt;`, all else unchanged. -/
def escCharSpec (c : Char) : List Char :=
  if c = '&' then "&amp;".data
  else if c = '<' then "&lt;".data
  else if c = '>' then "&gt;".data
  else [c]

/-- Statement-side description of the block list the table loop of
`generate_multiple_tables_email` contributes for one input table. -/
def tableBlockSpec (pyFloat : List Char → Option ℚ) (now : List Char)
    (td : List Char × List Row) : List (List Char) :=
  match td.2 with
  | [] => []
  | _ :: _ => [headingSection td.1,
      generate_email_table pyFloat now td.2 none (use_formatting_of td.1) (exclude_cols_of td.1)]

/-! ## Helper lemmas -/

lemma char_digit_ne {c x : Char} (h : c.isDigit = true) (hx : x.isDigit = false) :
    c ≠ x := by
  intro e
  subst e
  rw [h] at hx
  exact Bool.noConfusion hx

lemma digit_not_ws {c : Char} (h : c.isDigit = true) : c.isWhitespace = false := by
  cases hw : c.isWhitespace
  · rfl
  · exfalso
    simp only [Char.isWhitespace, Bool.or_eq_true, decide_eq_true_eq] at hw
    rcases hw with ⟨⟨h1 | h1⟩ | h1⟩ | h1 <;> subst h1 <;> simp [Char.isDigit] at h

lemma dropWhile_ws_digits (l : List Char) (h : ∀ c ∈ l, c.isDigit = true) :
    l.dropWhile Char.isWhitespace = l := by
  cases l with
  | nil => rfl
  | cons c t =>
    rw [List.dropWhile_cons]
    simp [digit_not_ws (h c (List.mem_cons_self c t))]

lemma pyStrip_digits (l : List Char) (h : ∀ c ∈ l, c.isDigit = true) :
    pyStrip l = l := by
  unfold pyStrip
  rw [dropWhile_ws_digits l h,
    dropWhile_ws_digits l.reverse (fun c hc => h c (List.mem_reverse.mp hc)),
    List.reverse_reverse]

lemma digit_notSep {c : Char} (h : c.isDigit = true) : notSep c = true := by
  unfold notSep
  rw [beq_eq_false_iff_ne.mpr (char_digit_ne h (by decide)),
    beq_eq_false_iff_ne.mpr (char_digit_ne h (by decide)),
    beq_eq_false_iff_ne.mpr (char_digit_ne h (by decide)),
    beq_eq_false_iff_ne.mpr (char_digit_ne h (by decide))]
  rfl

lemma startsWith_plus_digits (l : List Char) (h : ∀ c ∈ l, c.isDigit = true) :
    startsWithSeq l ['+', '9', '1'] = false := by
  cases l with
  | nil => rfl
  | cons c t =>
    have hc : (c == '+') = false :=
      beq_eq_false_iff_ne.mpr (char_digit_ne (h c (List.mem_cons_self c t)) (by decide))
    simp [startsWithSeq, hc]

lemma stripCountryCode_digits (l : List Char) (h : ∀ c ∈ l, c.isDigit = true)
    (hlen : l.length ≤ 10) : stripCountryCode l = l := by
  unfold stripCountryCode
  rw [if_neg, if_neg]
  · rintro ⟨-, hl⟩
    omega
  · rw [startsWith_plus_digits l h]
    exact Bool.noConfusion

lemma phone_digits_all (x : List Char) : ∀ c ∈ phone_digits x, c.isDigit = true :=
  fun _ hc => List.of_mem_filter hc

lemma normalize_cons (c : Char) (t : List Char) :
    normalize_phone_number (c :: t) =
      (if 10 ≤ (phone_digits (c :: t)).length then
        (phone_digits (c :: t)).drop ((phone_digits (c :: t)).length - 10)
      else phone_digits (c :: t)) := rfl

lemma normalize_all_digits (x : List Char) :
    ∀ c ∈ normalize_phone_number x, c.isDigit = true := by
  cases x with
  | nil => intro c hc; exact absurd hc (List.not_mem_nil c)
  | cons a t =>
    intro c hc
    rw [normalize_cons] at hc
    by_cases h10 : 10 ≤ (phone_digits (a :: t)).length
    · rw [if_pos h10] at hc
      exact phone_digits_all _ c (List.mem_of_mem_drop hc)
    · rw [if_neg h10] at hc
      exact phone_digits_all _ c hc

lemma normalize_len (x : List Char) : (normalize_phone_number x).length ≤ 10 := by
  cases x with
  | nil => decide
  | cons a t =>
    rw [normalize_cons]
    by_cases h10 : 10 ≤ (phone_digits (a :: t)).length
    · rw [if_pos h10, List.length_drop]
      omega
    · rw [if_neg h10]
      omega

lemma normalize_fix (m : List Char) (hd : ∀ c ∈ m, c.isDigit = true)
    (hlen : m.length ≤ 10) : normalize_phone_number m = m := by
  cases m with
  | nil => rfl
  | cons c t =>
    have hpd : phone_digits (c :: t) = c :: t := by
      unfold phone_digits
      rw [pyStrip_digits _ hd, List.filter_eq_self.mpr (fun a ha => digit_notSep (hd a ha)),
        stripCountryCode_digits _ hd hlen, List.filter_eq_self.mpr hd]
    rw [normalize_cons, hpd]
    by_cases h10 : 10 ≤ (c :: t).length
    · rw [if_pos h10]
      have hlen10 : (c :: t).length = 10 := le_antisymm hlen h10
      rw [hlen10]
      simp
    · rw [if_neg h10]

lemma escapeHtml_flatMap (v : List Char) : escapeHtml v = v.flatMap escCharSpec := by
  induction v with
  | nil => rfl
  | cons c t ih =>
    rw [List.flatMap_cons, ← ih]
    by_cases h1 : c = '&'
    · subst h1
      show replaceGt (replaceLt ('&' :: 'a' :: 'm' :: 'p' :: ';' :: replaceAmp t)) = _
      show replaceGt ('&' :: 'a' :: 'm' :: 'p' :: ';' :: replaceLt (replaceAmp t)) = _
      show '&' :: 'a' :: 'm' :: 'p' :: ';' :: replaceGt (replaceLt (replaceAmp t)) = _
      rfl
    · by_cases h2 : c = '<'
      · subst h2
        show replaceGt (replaceLt ('<' :: replaceAmp t)) = _
        show replaceGt ('&' :: 'l' :: 't' :: ';' :: replaceLt (replaceAmp t)) = _
        show '&' :: 'l' :: 't' :: ';' :: replaceGt (replaceLt (replaceAmp t)) = _
        rfl
      · by_cases h3 : c = '>'
        · subst h3
          show replaceGt (replaceLt ('>' :: replaceAmp t)) = _
          show replaceGt ('>' :: replaceLt (replaceAmp t)) = _
          show '&' :: 'g' :: 't' :: ';' :: replaceGt (replaceLt (replaceAmp t)) = _
          rfl
        · have e1 : replaceAmp (c :: t) = c :: replaceAmp t := by
            simp [replaceAmp, h1]
          have e2 : replaceLt (c :: replaceAmp t) = c :: replaceLt (replaceAmp t) := by
            simp [replaceLt, h2]
          have e3 : replaceGt (c :: replaceLt (replaceAmp t))
              = c :: replaceGt (replaceLt (replaceAmp t)) := by
            simp [replaceGt, h3]
          show replaceGt (replaceLt (replaceAmp (c :: t))) = _
          rw [e1, e2, e3]
          simp [escCharSpec, h1, h2, h3, escapeHtml]

lemma escapeHtml_no_lt (v : List Char) : '<' ∉ escapeHtml v := by
  rw [escapeHtml_flatMap]
  intro hm
  rw [List.mem_flatMap] at hm
  obtain ⟨c, -, hc⟩ := hm
  unfold escCharSpec at hc
  split_ifs at hc with h1 h2 h3
  · exact absurd hc (by decide)
  · exact absurd hc (by decide)
  · exact absurd hc (by decide)
  · rw [List.mem_singleton] at hc
    exact h2 hc.symm

lemma escapeHtml_no_gt (v : List Char) : '>' ∉ escapeHtml v := by
  rw [escapeHtml_flatMap]
  intro hm
  rw [List.mem_flatMap] at hm
  obtain ⟨c, -, hc⟩ := hm
  unfold escCharSpec at hc
  split_ifs at hc with h1 h2 h3
  · exact absurd hc (by decide)
  · exact absurd hc (by decide)
  · exact absurd hc (by decide)
  · rw [List.mem_singleton] at hc
    exact h3 hc.symm

lemma sendLoop_attempted (send : List Char → Except (List Char) Unit) :
    ∀ rs : List (List Char), (sendLoop send rs).1 = rs := by
  intro rs
  induction rs with
  | nil => rfl
  | cons r rest ih =>
    show (sendLoop send (r :: rest)).1 = r :: rest
    unfold sendLoop
    cases hs : send r <;> simp [hs, ih]

lemma sendLoop_failed (send : List Char → Except (List Char) Unit) :
    ∀ rs : List (List Char), (sendLoop send rs).2 = rs.filter (sendFails send) := by
  intro rs
  induction rs with
  | nil => rfl
  | cons r rest ih =>
    unfold sendLoop
    rw [List.filter_cons]
    cases hs : send r <;> simp [sendFails, hs, ih]

lemma foldl_tables (pyFloat : List Char → Option ℚ) (now : List Char) :
    ∀ (ts : List (List Char × List Row)) (acc : List (List Char)),
      ts.foldl (tables_loop_step pyFloat now) acc
        = acc ++ ts.flatMap (tableBlockSpec pyFloat now) := by
  intro ts
  induction ts with
  | nil => intro acc; simp
  | cons td rest ih =>
    intro acc
    rw [List.foldl_cons, List.flatMap_cons, ih]
    have hstep : tables_loop_step pyFloat now acc td = acc ++ tableBlockSpec pyFloat now td := by
      cases h : td.2 with
      | nil => simp [tables_loop_step, tableBlockSpec, h]
      | cons a b => simp [tables_loop_step, tableBlockSpec, h]
    rw [hstep, List.append_assoc]

lemma joinWith_concat (sep : List Char) :
    ∀ (ps : List (List Char)) (x : List Char),
      ∃ pre, joinWith sep (ps ++ [x]) = pre ++ x := by
  intro ps
  induction ps with
  | nil => intro x; exact ⟨[], rfl⟩
  | cons p ps ih =>
    intro x
    cases ps with
    | nil => exact ⟨p ++ sep, rfl⟩
    | cons q qs =>
      obtain ⟨pre, hp⟩ := ih x
      refine ⟨p ++ sep ++ pre, ?_⟩
      show p ++ sep ++ joinWith sep ((q :: qs) ++ [x]) = p ++ sep ++ pre ++ x
      rw [hp, List.append_assoc (p ++ sep)]

/-! ## Claim theorems -/

/-- C1 (counterexample): the claim "if current weight is missing then
`compute_progress_status` returns `"Data Incomplete"`" is false on the
code: an analytics row with start weight 100, goal weight 90, a missing
current weight but a parseable `Current Weight Lose` of 5, and a GLP dose
date equal to today, is classified `"On Track"`. -/
theorem claim_c1_counterexample :
    (AnalyticsEntry.mk (some 100) (some 90) none (some 5)).currentWeight = none
    ∧ compute_progress_status 0 (some ⟨some 0⟩)
        (some (AnalyticsEntry.mk (some 100) (some 90) none (some 5)))
        ≠ "Data Incomplete" := by
  refine ⟨rfl, ?_⟩
  have key : compute_progress_status 0 (some ⟨some 0⟩)
      (some (AnalyticsEntry.mk (some 100) (some 90) none (some 5))) = "On Track" := by
    simp only [compute_progress_status]
    rw [if_neg (by norm_num : ¬ ((100 : ℚ) - 90 ≤ 0))]
    dsimp only [Option.bind]
    rw [show max ((0 : ℤ) - 0) 0 = 0 from by decide]
    rw [if_pos (by norm_num)]
  rw [key]
  decide

/-- C1 (amended): `compute_progress_status` returns `"Data Incomplete"`
when the analytics entry is absent, the start or goal weight is missing,
the target total loss is non-positive, the reference start date is missing
or unparseable, or — amending the claim — the current weight is missing
AND the `Current Weight Lose` fallback is also missing. -/
theorem claim_c1 : ∀ (today : Int) (sheet : Option SheetEntry)
    (analytics : Option AnalyticsEntry),
    (analytics = none
      ∨ ∃ a, analytics = some a ∧
        (a.startWeight = none ∨ a.goalWeight = none
          ∨ (∃ sw gw, a.startWeight = some sw ∧ a.goalWeight = some gw ∧ sw - gw ≤ 0)
          ∨ sheet.bind SheetEntry.glpFirstDose = none
          ∨ (a.currentWeight = none ∧ a.currentWeightLose = none))) →
    compute_progress_status today sheet analytics = "Data Incomplete" := by
  intro today sheet analytics h
  rcases h with rfl | ⟨a, rfl, hcase⟩
  · rfl
  · obtain ⟨osw, ogw, ocw, ocwl⟩ := a
    rcases hcase with h | h | ⟨sw, gw, h1, h2, h3⟩ | h | ⟨h1, h2⟩
    · subst h
      cases ogw <;> rfl
    · subst h
      cases osw <;> rfl
    · subst h1; subst h2
      simp only [compute_progress_status]
      rw [if_pos h3]
    · cases osw with
      | none => rfl
      | some sw =>
        cases ogw with
        | none => rfl
        | some gw =>
          simp only [compute_progress_status]
          by_cases hle : sw - gw ≤ 0
          · rw [if_pos hle]
          · rw [if_neg hle, h]
    · subst h1; subst h2
      cases osw with
      | none => rfl
      | some sw =>
        cases ogw with
        | none => rfl
        | some gw =>
          simp only [compute_progress_status]
          by_cases hle : sw - gw ≤ 0
          · rw [if_pos hle]
          · rw [if_neg hle]
            cases hd : sheet.bind SheetEntry.glpFirstDose with
            | none => rfl
            | some glp => rfl

/-- C1 witness: a missing analytics entry is classified Data Incomplete. -/
theorem claim_c1_witness :
    compute_progress_status 0 none none = "Data Incomplete" :=
  claim_c1 0 none none (Or.inl rfl)

/-- C2: with complete inputs (parseable start, goal and current weight, a
strictly positive target loss and a parseable reference date),
`compute_progress_status` returns `"On Track"` exactly when the actual
loss `start - current` is at least the expected linear loss
`(start - goal) / 90 * elapsed_days` with
`elapsed_days = max (today - date) 0`, and `"Off Track"` otherwise. -/
theorem claim_c2 : ∀ (today d : Int) (sheet : Option SheetEntry)
    (a : AnalyticsEntry) (sw gw cw : ℚ),
    a.startWeight = some sw → a.goalWeight = some gw → a.currentWeight = some cw →
    0 < sw - gw → sheet.bind SheetEntry.glpFirstDose = some d →
    (compute_progress_status today sheet (some a) = "On Track"
      ↔ (sw - gw) / 90 * ((max (today - d) 0 : ℤ) : ℚ) ≤ sw - cw)
    ∧ (compute_progress_status today sheet (some a) = "Off Track"
      ↔ ¬ ((sw - gw) / 90 * ((max (today - d) 0 : ℤ) : ℚ) ≤ sw - cw)) := by
  intro today d sheet a sw gw cw hsw hgw hcw hpos hdate
  obtain ⟨osw, ogw, ocw, ocwl⟩ := a
  subst hsw; subst hgw; subst hcw
  have key : compute_progress_status today sheet
        (some (AnalyticsEntry.mk (some sw) (some gw) (some cw) ocwl))
      = if (sw - gw) / 90 * ((max (today - d) 0 : ℤ) : ℚ) ≤ sw - cw then "On Track"
        else "Off Track" := by
    simp only [compute_progress_status]
    rw [if_neg (not_le.mpr hpos), hdate]
  constructor
  · rw [key]
    by_cases hc : (sw - gw) / 90 * ((max (today - d) 0 : ℤ) : ℚ) ≤ sw - cw
    · rw [if_pos hc]
      exact ⟨fun _ => hc, fun _ => rfl⟩
    · rw [if_neg hc]
      exact ⟨fun h => absurd h (by decide), fun h => absurd h hc⟩
  · rw [key]
    by_cases hc : (sw - gw) / 90 * ((max (today - d) 0 : ℤ) : ℚ) ≤ sw - cw
    · rw [if_pos hc]
      exact ⟨fun h => absurd h (by decide), fun h => absurd hc h⟩
    · rw [if_neg hc]
      exact ⟨fun _ => hc, fun _ => rfl⟩

/-- C2 witness: 10 days after the dose date, start 100, goal 91, current 98
(actual loss 2, expected loss 1) is classified On Track. -/
theorem claim_c2_witness :
    compute_progress_status 10 (some ⟨some 0⟩)
      (some (AnalyticsEntry.mk (some 100) (some 91) (some 98) none)) = "On Track" := by
  have h := (claim_c2 10 0 (some ⟨some 0⟩)
    (AnalyticsEntry.mk (some 100) (some 91) (some 98) none) 100 91 98
    rfl rfl rfl (by norm_num) rfl).1
  refine h.mpr ?_
  rw [show max ((10 : ℤ) - 0) 0 = 10 from by decide]
  norm_num

/-- C3: a 409 response makes `ingest_lead` return the non-error
"already exists" result and the sync loop increment `already_exists`
leaving `failed` unchanged; any other HTTP error status (400-599) is
recorded as a failure (`failed` incremented, one error string appended)
and the loop continues with the next lead, each lead being attempted
exactly once (structurally: one response is consumed per lead). -/
theorem claim_c3 : ∀ (stats : SyncStats) (phone : String)
    (body : Option (Option String)) (st : Nat) (lead : String × NetOutcome)
    (rest : List (String × NetOutcome)),
    (ingest_lead (.response 409 body) = .ok ⟨some "exists"⟩)
    ∧ (sync_ingest_step stats (phone, .response 409 body)
        = { stats with already_exists := stats.already_exists + 1 })
    ∧ (400 ≤ st → st < 600 → st ≠ 409 →
        sync_ingest_step stats (phone, .response st body)
          = { stats with
              failed := stats.failed + 1,
              errors := stats.errors
                ++ ["Failed to ingest lead " ++ phone ++ ": " ++ "HTTPError"] })
    ∧ (sync_ingest_loop (lead :: rest) stats
        = sync_ingest_loop rest (sync_ingest_step stats lead)) := by
  intro stats phone body st lead rest
  refine ⟨rfl, rfl, ?_, rfl⟩
  intro hle hlt hne
  unfold sync_ingest_step ingest_lead
  dsimp only
  rw [if_pos ⟨hle, hlt⟩, if_neg hne]

/-- C3 witness: on fresh statistics, a 409 response increments
`already_exists` only, and a 500 response increments `failed` and appends
one error string. -/
theorem claim_c3_witness :
    sync_ingest_step ⟨0, 0, 0, []⟩ ("p1", .response 409 none) = ⟨0, 1, 0, []⟩
    ∧ sync_ingest_step ⟨0, 0, 0, []⟩ ("p2", .response 500 none)
      = ⟨0, 0, 1, ["Failed to ingest lead p2: HTTPError"]⟩ := by
  constructor
  · exact (claim_c3 ⟨0, 0, 0, []⟩ "p1" none 500 ("x", .netError "e") []).2.1
  · exact (claim_c3 ⟨0, 0, 0, []⟩ "p2" none 500 ("x", .netError "e") []).2.2.1
      (by decide) (by decide) (by decide)

/-- C4: `normalize_phone_number` is idempotent, and it maps both
`"+919876543210"` and `"9876543210"` to the literal `"9876543210"`. -/
theorem claim_c4 :
    (∀ x : List Char,
      normalize_phone_number (normalize_phone_number x) = normalize_phone_number x)
    ∧ normalize_phone_number "+919876543210".data = "9876543210".data
    ∧ normalize_phone_number "9876543210".data = "9876543210".data := by
  refine ⟨fun x => normalize_fix _ (normalize_all_digits x) (normalize_len x),
    by decide, by decide⟩

/-- C5 (counterexample): the claim "`send_report_email` returns True if
and only if zero recipients failed" is false on the code: with one
recipient whose send succeeds (zero failed recipients) but whose session
teardown `server.quit()` raises, the source's outer `except Exception`
handler returns `False`. -/
theorem claim_c5_counterexample :
    (sendLoop (fun _ => .ok ()) ["a".data]).2 = []
    ∧ (send_report_email (.ok ()) (fun _ => .ok ()) (.error ()) ["a".data]).1 = false := by
  exact ⟨rfl, rfl⟩

/-- C5 (amended): an exception while sending to one recipient is caught
and recorded (the failed list is exactly the recipients whose send
errors, in order) and delivery continues (a send is attempted for every
recipient); `send_report_email` returns success exactly when no recipient
failed AND the closing `server.quit()` succeeds; and an authentication
failure aborts the whole send with failure before any per-recipient
attempt. -/
theorem claim_c5 : ∀ (send : List Char → Except (List Char) Unit)
    (quit : Except Unit Unit) (recipients : List (List Char)),
    (send_report_email (.error ()) send quit recipients = (false, []))
    ∧ ((send_report_email (.ok ()) send quit recipients).2 = recipients)
    ∧ ((send_report_email (.ok ()) send quit recipients).1 = true
        ↔ (recipients.filter (sendFails send) = [] ∧ quit = .ok ()))
    ∧ ((sendLoop send recipients).2 = recipients.filter (sendFails send)) := by
  intro send quit recipients
  refine ⟨rfl, ?_, ?_, sendLoop_failed send recipients⟩
  · cases quit with
    | error e => exact sendLoop_attempted send recipients
    | ok u => exact sendLoop_attempted send recipients
  · cases quit with
    | error e =>
      have hf : (send_report_email (.ok ()) send (.error e) recipients).1 = false := rfl
      constructor
      · intro h
        rw [hf] at h
        exact Bool.noConfusion h
      · rintro ⟨-, hq⟩
        exact Except.noConfusion hq
    | ok u =>
      cases u
      show (if (sendLoop send recipients).2 = [] then true else false) = true
          ↔ (recipients.filter (sendFails send) = [] ∧ Except.ok () = Except.ok ())
      rw [sendLoop_failed]
      by_cases h : recipients.filter (sendFails send) = []
      · rw [if_pos h]
        exact ⟨fun _ => ⟨h, rfl⟩, fun _ => rfl⟩
      · rw [if_neg h]
        exact ⟨fun hh => absurd hh (by decide), fun hc => absurd hc.1 h⟩

/-- C6: the escape applied to every cell value replaces `&`, `<` and `>`
by `&amp;`, `&lt;` and `&gt;` respectively (it equals the per-character
escape map), so the emitted cell text contains no raw `<` or `>`;
and each `<td>` emitted by the table renderer consists of the tag, the
attribute text, and exactly the escaped value between `>` and `</td>`. -/
theorem claim_c6 : ∀ (v col : List Char) (pyFloat : List Char → Option ℚ)
    (cf : Bool) (ccs : List (List Char × List Char)),
    escapeHtml v = v.flatMap escCharSpec
    ∧ '<' ∉ escapeHtml v
    ∧ '>' ∉ escapeHtml v
    ∧ renderTd pyFloat cf ccs col v
        = "<td".data ++ tdAttrs pyFloat cf ccs col v ++ ">".data
          ++ escapeHtml v ++ "</td>".data := by
  intro v col pyFloat cf ccs
  exact ⟨escapeHtml_flatMap v, escapeHtml_no_lt v, escapeHtml_no_gt v, rfl⟩

/-- C6 witness: concrete escape of a value containing markup characters. -/
theorem claim_c6_witness :
    escapeHtml "O<Reilly> & Sons".data = "O<Reilly> & Sons".data.flatMap escCharSpec
    ∧ '<' ∉ escapeHtml "O<Reilly> & Sons".data
    ∧ '>' ∉ escapeHtml "O<Reilly> & Sons".data := by
  have h := claim_c6 "O<Reilly> & Sons".data [] (fun _ => none) false []
  exact ⟨h.1, h.2.1, h.2.2.1⟩

/-- C7: for the empty row list, `generate_email_table` returns the no-data
placeholder for every combination of the remaining parameters (and, being
a total function, never raises). -/
theorem claim_c7 : ∀ (pyFloat : List Char → Option ℚ) (now : List Char)
    (title : Option (List Char)) (cf : Bool) (ex : Option (List (List Char))),
    generate_email_table pyFloat now [] title cf ex
      = "<p class=\"no-data\">No data available</p>".data := by
  intro _ _ _ _ _
  rfl

/-- C8: the lead payload is exactly the flat key/value list with
`phone_number` always present and digits-only, `name`/`email` present
exactly when their cleaned source fields are non-empty (and, for email,
not `"null"` case-insensitively), followed by the constant
`source`/`sub_source`/`status` fields and the `notes` string; `None`
values are filtered out before the payload is returned (structurally, the
payload maps keys to plain strings, never to `None`). -/
theorem claim_c8 : ∀ (r : ExternalRecord) (now : List Char),
    (transform_external_data_to_lead r now
      = ("phone_number".data, lead_phone_of r)
        :: ((match lead_name_of r with | some n => [("name".data, n)] | none => [])
          ++ (match lead_email_of r with | some e => [("email".data, e)] | none => [])
          ++ [("source".data, "MDT App Signup".data),
              ("sub_source".data, "Daily Sync".data),
              ("status".data, "New".data),
              ("notes".data, lead_notes_of r now)]))
    ∧ (∀ c ∈ lead_phone_of r, c.isDigit = true)
    ∧ (lead_name_of r = none ↔ pyStrip (orEmpty r.patient_name) = [])
    ∧ (lead_email_of r = none
        ↔ (pyStrip (orEmpty r.email) = []
            ∨ lowerL (pyStrip (orEmpty r.email)) = "null".data)) := by
  intro r now
  refine ⟨?_, fun c hc => List.of_mem_filter hc, ?_, ?_⟩
  · unfold transform_external_data_to_lead
    cases hn : lead_name_of r with
    | none =>
      cases he : lead_email_of r with
      | none => simp [List.filterMap_cons]
      | some e => simp [List.filterMap_cons]
    | some n =>
      cases he : lead_email_of r with
      | none => simp [List.filterMap_cons]
      | some e => simp [List.filterMap_cons]
  · unfold lead_name_of
    dsimp only
    split_ifs with h
    · exact ⟨fun _ => h, fun _ => rfl⟩
    · exact ⟨fun hh => hh.elim, fun he => absurd he h⟩
  · unfold lead_email_of
    dsimp only
    split_ifs with h
    · refine ⟨fun _ => ?_, fun _ => rfl⟩
      tauto
    · refine ⟨fun hh => hh.elim, fun hab => absurd ?_ h⟩
      tauto

/-- C8 witness: a record with a blank name and an email reading `" NULL "`
produces a payload without the `name` and `email` keys. -/
theorem claim_c8_witness :
    lead_name_of (ExternalRecord.mk (some " 98765 43210 ".data) (some "  ".data)
        (some "t".data) (some " NULL ".data)) = none
    ∧ lead_email_of (ExternalRecord.mk (some " 98765 43210 ".data) (some "  ".data)
        (some "t".data) (some " NULL ".data)) = none := by
  have h := claim_c8 (ExternalRecord.mk (some " 98765 43210 ".data) (some "  ".data)
    (some "t".data) (some " NULL ".data)) "NOW".data
  exact ⟨h.2.2.1.mpr (by decide), h.2.2.2.mpr (Or.inr (by decide))⟩

/-- C9: the assembled email equals the document shell, header and optional
greeting, followed by exactly one heading-plus-table block per non-empty
input table in input order (empty tables contribute nothing), the optional
closing, and the fixed footer; the document ends with the footer, which
contains the generation timestamp. -/
theorem claim_c9 : ∀ (pyFloat : List Char → Option ℚ) (now : List Char)
    (tables : List (List Char × List Row)) (title : List Char)
    (greeting closing : Option (List Char)),
    (generate_multiple_tables_email pyFloat now tables title greeting closing
      = joinWith "\n".data
          (([docHead, headerBlock title] ++ truthyBlock greetingBlock greeting)
            ++ tables.flatMap (tableBlockSpec pyFloat now)
            ++ (truthyBlock closingBlock closing ++ [footerBlock now])))
    ∧ (∃ pre, generate_multiple_tables_email pyFloat now tables title greeting closing
        = pre ++ footerBlock now)
    ∧ (∃ l1 l2, footerBlock now = l1 ++ now ++ l2) := by
  intro pf now tables title greeting closing
  have h1 : generate_multiple_tables_email pf now tables title greeting closing
      = joinWith "\n".data
          (([docHead, headerBlock title] ++ truthyBlock greetingBlock greeting)
            ++ tables.flatMap (tableBlockSpec pf now)
            ++ (truthyBlock closingBlock closing ++ [footerBlock now])) := by
    unfold generate_multiple_tables_email
    dsimp only
    rw [foldl_tables]
    simp [List.append_assoc]
  refine ⟨h1, ?_, footerPre, footerPost, rfl⟩
  rw [h1]
  have hsh : ([docHead, headerBlock title] ++ truthyBlock greetingBlock greeting)
        ++ tables.flatMap (tableBlockSpec pf now)
        ++ (truthyBlock closingBlock closing ++ [footerBlock now])
      = (([docHead, headerBlock title] ++ truthyBlock greetingBlock greeting)
          ++ tables.flatMap (tableBlockSpec pf now)
          ++ truthyBlock closingBlock closing) ++ [footerBlock now] := by
    simp [List.append_assoc]
  rw [hsh]
  exact joinWith_concat _ _ _

/-- C10: `normalize_phone_number` always returns a digits-only string of
length at most 10, and when at least 10 digits remain after
country-prefix stripping the result is exactly the last 10 of those
digits. -/
theorem claim_c10 : ∀ x : List Char,
    ((normalize_phone_number x).length ≤ 10
      ∧ ∀ c ∈ normalize_phone_number x, c.isDigit = true)
    ∧ (10 ≤ (phone_digits x).length →
        normalize_phone_number x
          = (phone_digits x).drop ((phone_digits x).length - 10)) := by
  intro x
  refine ⟨⟨normalize_len x, normalize_all_digits x⟩, ?_⟩
  cases x with
  | nil =>
    intro h
    rw [show phone_digits [] = [] from rfl] at h
    exact absurd h (by decide)
  | cons a t =>
    intro h
    rw [normalize_cons, if_pos h]

/-- C10 witness: on a 14-digit input the normalizer returns exactly the
last 10 of the digits remaining after prefix stripping. -/
theorem claim_c10_witness :
    10 ≤ (phone_digits "00919876543210".data).length
    ∧ normalize_phone_number "00919876543210".data
      = (phone_digits "00919876543210".data).drop
          ((phone_digits "00919876543210".data).length - 10) :=
  ⟨by decide, (claim_c10 "00919876543210".data).2 (by decide)⟩

end DailyAnalytics
